import Mathlib

/-!
Shallow embedding of the core of heart_all.py (repository Temerold/heart-all):
the Playlist Reader (get_saveable_tracks), the Library Synchronizer
(save_tracks), the pure formatting helpers (get_formatted_track_number,
get_track_artist_names, get_track_info_appendix), and the post-authentication
part of main. Remote Spotify API calls are modelled by explicit response
oracles; a SpotifyException raised by a call is modelled as the value
Except.error (). Log output is modelled as an explicit list of entries.
-/

namespace HeartAll

/-- Python str.rjust with the space fill character: pad on the left with
spaces up to the given width (no change when the string is already at least
that wide). -/
def pyRjust (s : String) (width : Nat) : String :=
  String.mk (List.replicate (width - s.length) ' ') ++ s

/-- Embeds get_formatted_track_number (heart_all.py lines 32-33):
str(queued_tracks + 1).rjust(len(str(track_count))) followed by a slash and
track_count. -/
def get_formatted_track_number (queued_tracks track_count : Nat) : String :=
  pyRjust (Nat.repr (queued_tracks + 1)) (Nat.repr track_count).length
    ++ "/" ++ Nat.repr track_count

/-- One entry of the artists list of a Spotify track object: only its name
field is ever read by the code. -/
structure Artist where
  name : String
deriving DecidableEq

/-- A Spotify track object as read by the code: the id field may be null
(modelled as none), the name is a string, the artists are a list. -/
structure TrackObj where
  id : Option String
  name : String
  artists : List Artist
deriving DecidableEq

/-- One element of the items list of a playlist page: its track field may be
missing or null (modelled as none). -/
structure Item where
  track : Option TrackObj
deriving DecidableEq

/-- One page of playlist items as returned by the remote API: the items, the
total count reported by the API, and whether the next cursor is truthy. -/
structure Page where
  items : List Item
  total : Nat
  next : Bool
deriving DecidableEq

/-- A log record: the code writes info lines (logging.info) and error lines
(logging.error). -/
inductive LogEntry where
  | info (msg : String)
  | error (msg : String)
deriving DecidableEq

/-- Embeds get_track_artist_names (heart_all.py lines 127-128): the list of
the name field of every artist of the track, in order, empties included. -/
def get_track_artist_names (track : TrackObj) : List String :=
  track.artists.map (fun a => a.name)

/-- Embeds get_track_info_appendix (heart_all.py lines 131-138). The Python
condition is the truthiness of filter(lambda i: i, track_artists) and of
filter(lambda i: i, track_name); the second filter iterates the characters of
the name string, and every one-character Python string is truthy, so that
filter keeps every character and is non-empty exactly when the name is. -/
def get_track_info_appendix (track : TrackObj) : String :=
  let track_artists : List String := get_track_artist_names track
  let track_name : String := track.name
  if (track_artists.filter (fun i => !i.isEmpty)) ≠ [] ∧
      (track_name.data.filter (fun _ => true)) ≠ [] then
    ": " ++ String.intercalate ", " track_artists ++ " - " ++ track_name
  else
    ""

/-- The skip test of get_saveable_tracks (heart_all.py line 45), as the
condition for keeping an item: the track field is present and its id is
present (not null). -/
def saveable_item (it : Item) : Bool :=
  match it.track with
  | none => false
  | some track => track.id.isSome

/-- The track an item contributes to the produced list, when the skip test
of heart_all.py line 45 keeps it. -/
def saveable_track_of (it : Item) : Option TrackObj :=
  match it.track with
  | none => none
  | some track => if track.id.isSome then some track else none

/-- The inner for-loop of get_saveable_tracks (heart_all.py lines 43-59) over
the items of one page: threads the queued_tracks counter and produces the
appended tracks and the queue log lines of that page. -/
def process_items (track_count : Nat) (queued_tracks : Nat) :
    List Item → List TrackObj × List LogEntry × Nat
  | [] => ([], [], queued_tracks)
  | it :: rest =>
    match it.track with
    | none => process_items track_count queued_tracks rest
    | some track =>
      match track.id with
      | none => process_items track_count queued_tracks rest
      | some tid =>
        let formatted_track_number :=
          get_formatted_track_number queued_tracks track_count
        let track_info_appendix := get_track_info_appendix track
        let queue_message :=
          formatted_track_number ++ " Queued track with ID " ++ tid
            ++ track_info_appendix
        let r := process_items track_count (queued_tracks + 1) rest
        (track :: r.1, LogEntry.info queue_message :: r.2.1, r.2.2)

/-- The while-loop of get_saveable_tracks (heart_all.py lines 42-63). The
successive results of spotipy_client.next are given up front as the list
next_results; the loop processes the current page, stops when its next cursor
is falsy, and otherwise continues with the next result, stopping when that
result is exhausted (spotipy returned a falsy value). Returns the tracks, the
queue log lines and the final queued_tracks counter. -/
def get_saveable_tracks_loop (track_count : Nat) (queued_tracks : Nat)
    (page : Page) : List Page → List TrackObj × List LogEntry × Nat
  | [] => process_items track_count queued_tracks page.items
  | p :: ps =>
    let pr := process_items track_count queued_tracks page.items
    if page.next then
      let r := get_saveable_tracks_loop track_count pr.2.2 p ps
      (pr.1 ++ r.1, pr.2.1 ++ r.2.1, r.2.2)
    else
      pr

/-- The pages whose items the while-loop of get_saveable_tracks actually
iterates: the first page, then, while the next cursor is truthy, each
successive result of spotipy_client.next until those run out. -/
def visitedPages (page : Page) : List Page → List Page
  | [] => [page]
  | p :: ps => page :: (if page.next then visitedPages p ps else [])

/-- The mapping returned by get_saveable_tracks (heart_all.py lines 65-69),
plus the queue log lines it emitted. -/
structure SaveableTracks where
  tracks : List TrackObj
  track_count : Nat
  queued_tracks : Nat
  logs : List LogEntry
deriving DecidableEq

/-- Embeds get_saveable_tracks (heart_all.py lines 36-69): track_count is
captured once from the total of the first page, then the pagination loop
runs. -/
def get_saveable_tracks (first : Page) (next_results : List Page) :
    SaveableTracks :=
  let track_count := first.total
  let r := get_saveable_tracks_loop track_count 0 first next_results
  ⟨r.1, track_count, r.2.2, r.2.1⟩

/-- The remote responses seen by one run of save_tracks: for the iteration at
index i, the response of current_user_saved_tracks_contains (Except.error ()
when the call raises SpotifyException) and the response of
current_user_saved_tracks_add (consulted only when the add call is made). -/
structure SaveEnv where
  contains : Nat → Except Unit Bool
  add : Nat → Except Unit Unit

/-- The result of save_tracks: the two counters the function returns
(heart_all.py line 221), the log lines it wrote, and the arguments of every
current_user_saved_tracks_add call it issued. -/
structure SaveResult where
  tracksSaved : Nat
  errorCount : Nat
  logs : List LogEntry
  addCalls : List String
deriving DecidableEq

/-- Python str applied to the id value interpolated into the log messages of
save_tracks: the string itself, or the rendering of null. -/
def pyStrOptId : Option String → String
  | some s => s
  | none => "None"

/-- The body of the for-loop of save_tracks (heart_all.py lines 191-219) at
index i: yields the increments of tracks_saved and error_count, the one log
entry written, and the add calls issued. The try block covers the presence
check, the add call and the logging; only SpotifyException is caught, and the
except block logs the error with the track id and bumps error_count. -/
def save_tracks_step (env : SaveEnv) (total i : Nat) (track : TrackObj) :
    Nat × Nat × LogEntry × List String :=
  let track_id := pyStrOptId track.id
  let formatted_track_number := get_formatted_track_number i total
  let track_info_appendix := get_track_info_appendix track
  match env.contains i with
  | .error _ =>
    (0, 1, LogEntry.error ("Error saving track with ID " ++ track_id), [])
  | .ok true =>
    (0, 0,
      LogEntry.info (formatted_track_number ++ " Track with ID " ++ track_id
        ++ " already saved" ++ track_info_appendix),
      [])
  | .ok false =>
    match env.add i with
    | .error _ =>
      (0, 1, LogEntry.error ("Error saving track with ID " ++ track_id),
        [track_id])
    | .ok _ =>
      (1, 0,
        LogEntry.info (formatted_track_number ++ " Saved track with ID "
          ++ track_id ++ track_info_appendix),
        [track_id])

/-- The for-loop of save_tracks, iterating from index i over the remaining
tracks and accumulating counters, logs and add calls. -/
def save_tracks_loop (env : SaveEnv) (total : Nat) (i : Nat) :
    List TrackObj → SaveResult
  | [] => ⟨0, 0, [], []⟩
  | track :: rest =>
    let s := save_tracks_step env total i track
    let r := save_tracks_loop env total (i + 1) rest
    ⟨s.1 + r.tracksSaved, s.2.1 + r.errorCount, s.2.2.1 :: r.logs,
      s.2.2.2 ++ r.addCalls⟩

/-- Embeds save_tracks (heart_all.py lines 185-221) applied to the tracks
list of the mapping it receives; the width source of the position format is
len(tracks["tracks"]) (line 195). -/
def save_tracks (env : SaveEnv) (tracks : List TrackObj) : SaveResult :=
  save_tracks_loop env tracks.length 0 tracks

/-- Whether the presence check at index i reports the track as already saved
(the code logs this case but keeps no counter; this count is needed to state
the partition of outcomes). -/
def containsOkTrue (env : SaveEnv) (i : Nat) : Bool :=
  match env.contains i with
  | .ok true => true
  | _ => false

/-- The number of processed tracks whose presence check reported them as
already saved. -/
def already_saved_count (env : SaveEnv) (tracks : List TrackObj) : Nat :=
  ((List.range tracks.length).filter (containsOkTrue env)).length

/-- Whether the iteration at index i raises SpotifyException: either the
presence check raises, or it reports the track as absent and the add call
raises. -/
def save_step_raises (env : SaveEnv) (i : Nat) : Bool :=
  match env.contains i with
  | .error _ => true
  | .ok true => false
  | .ok false =>
    match env.add i with
    | .error _ => true
    | .ok _ => false

/-- The property C3 ascribes to an item: the track is present with a
NON-EMPTY identifier. The code instead keeps every item whose track is
present with a non-null identifier, so these differ on the empty string. -/
def has_nonempty_id (it : Item) : Bool :=
  match it.track with
  | none => false
  | some track =>
    match track.id with
    | none => false
    | some s => !s.isEmpty

/-- The remote responses seen by the modelled part of main: the response of
playlist_items (Except.error () when it raises SpotifyException), the
successive results of spotipy_client.next, and the synchronizer responses. -/
structure MainEnv where
  playlist_items : Except Unit Page
  next_pages : List Page
  contains : Nat → Except Unit Bool
  add : Nat → Except Unit Unit

/-- The observable outcome of the modelled part of main: the log entries
written after the playlist fetch, the add calls issued, and the final summary
line when one is produced. -/
structure MainResult where
  logs : List LogEntry
  addCalls : List String
  summary : Option String
deriving DecidableEq

/-- The message logged and printed by main when playlist_items raises
(heart_all.py lines 248-251). -/
def playlist_error_message (playlist_id : String) : String :=
  "Playlist ID " ++ playlist_id ++ " possibly invalid. See "
    ++ "https://developer.spotify.com/documentation/web-api/concepts/spotify-uris-ids"

/-- Embeds the part of main after authentication (heart_all.py lines
244-276): fetch the playlist items; on SpotifyException log the error and
return with no summary; otherwise run get_saveable_tracks, then save_tracks,
then log the summary line. -/
def main_core (env : MainEnv) (playlist_id : String) (log_filename : String) :
    MainResult :=
  match env.playlist_items with
  | .error _ =>
    ⟨[LogEntry.error (playlist_error_message playlist_id)], [], none⟩
  | .ok first =>
    let saveable := get_saveable_tracks first env.next_pages
    let s := save_tracks ⟨env.contains, env.add⟩ saveable.tracks
    let appendix := " Forcibly saved " ++ Nat.repr s.tracksSaved ++ "/"
      ++ Nat.repr saveable.queued_tracks ++ " tracks"
    let summary :=
      if s.errorCount ≠ 0 then
        "Finished with " ++ Nat.repr s.errorCount
          ++ " errors. See logs for more information: " ++ log_filename
          ++ appendix
      else
        "Finished without errors." ++ appendix
    ⟨saveable.logs ++ s.logs ++ [LogEntry.info summary], s.addCalls,
      some summary⟩

/-- A concrete track: name Song, artists A and B. -/
def trackSong : TrackObj := ⟨some "id1", "Song", [⟨"A"⟩, ⟨"B"⟩]⟩

/-- A concrete track with an empty name and a non-empty artist. -/
def trackEmptyName : TrackObj := ⟨some "id2", "", [⟨"A"⟩]⟩

/-- A concrete track with one non-empty artist. -/
def trackOneArtist : TrackObj := ⟨some "id3", "Song", [⟨"A"⟩]⟩

/-- A concrete track whose artists list holds one non-empty and one empty
name. -/
def trackEmptyArtistSlot : TrackObj := ⟨some "id4", "Song", [⟨"A"⟩, ⟨""⟩]⟩

/-- A concrete one-item page whose only item carries a track with the empty
string as its id. -/
def pageEmptyId : Page := ⟨[⟨some ⟨some "", "N", []⟩⟩], 1, false⟩

/-- A concrete three-item page whose second item has a null track field. -/
def page3 : Page :=
  ⟨[⟨some ⟨some "a", "", []⟩⟩, ⟨none⟩, ⟨some ⟨some "c", "", []⟩⟩], 3, false⟩

/-- The track at index 2 of tracks5. -/
def trk2 : TrackObj := ⟨some "t2", "", []⟩

/-- Five concrete tracks. -/
def tracks5 : List TrackObj :=
  [⟨some "t0", "", []⟩, ⟨some "t1", "", []⟩, trk2,
    ⟨some "t3", "", []⟩, ⟨some "t4", "", []⟩]

/-- A remote in which the presence check raises exactly at index 2 and every
other call succeeds. -/
def env5 : SaveEnv :=
  ⟨fun i => if i = 2 then Except.error () else Except.ok true,
    fun _ => Except.ok ()⟩

/-- A remote in which every presence check reports the track as already
saved. -/
def envAllSaved : SaveEnv := ⟨fun _ => Except.ok true, fun _ => Except.ok ()⟩

/-- A remote in which every presence check reports the track as absent and
every add call succeeds. -/
def envNoneSaved : SaveEnv := ⟨fun _ => Except.ok false, fun _ => Except.ok ()⟩

/-- A remote whose playlist listing call raises SpotifyException. -/
def envFatal : MainEnv :=
  ⟨Except.error (), [], fun _ => Except.ok true, fun _ => Except.ok ()⟩

end HeartAll

namespace HeartAll

/-! Helper lemmas shared by the claim theorems below. -/

theorem string_eq_empty_of_data_eq_nil (s : String) (h : s.data = []) :
    s = "" :=
  String.ext (by rw [h])

theorem eq_empty_of_append_length (pad s : String)
    (h : (pad ++ s).length = s.length) : pad = "" := by
  rw [String.length_append] at h
  have hl : pad.length = 0 := by omega
  cases pad with
  | mk d =>
    rw [String.length_mk, List.length_eq_zero] at hl
    exact string_eq_empty_of_data_eq_nil _ (by simpa using hl)

theorem pyRjust_spec (s : String) (n : Nat) :
    ∃ pad : String, pyRjust s n = pad ++ s ∧
      pad.toList.all (fun c => c == ' ') = true ∧
      (pad ++ s).length = max n s.length := by
  refine ⟨String.mk (List.replicate (n - s.length) ' '), rfl, ?_, ?_⟩
  · simp [String.toList, List.all_eq_true, List.eq_of_mem_replicate]
  · rw [String.length_append, String.length_mk, List.length_replicate]
    exact Nat.sub_add_eq_max n s.length

theorem get_formatted_track_number_spec (q t : Nat) :
    ∃ pad : String,
      get_formatted_track_number q t
        = pad ++ Nat.repr (q + 1) ++ "/" ++ Nat.repr t ∧
      pad.toList.all (fun c => c == ' ') = true ∧
      (pad ++ Nat.repr (q + 1)).length
        = max (Nat.repr t).length (Nat.repr (q + 1)).length := by
  obtain ⟨pad, h1, h2, h3⟩ := pyRjust_spec (Nat.repr (q + 1)) (Nat.repr t).length
  exact ⟨pad, by simp only [get_formatted_track_number, h1], h2, h3⟩

theorem process_items_spec (track_count : Nat) (items : List Item) :
    ∀ q : Nat,
      (process_items track_count q items).1 = items.filterMap saveable_track_of ∧
      (process_items track_count q items).2.2
        = q + (items.filter saveable_item).length ∧
      (process_items track_count q items).2.1.length
        = (items.filter saveable_item).length := by
  induction items with
  | nil => intro q; simp [process_items]
  | cons it rest ih =>
    intro q
    rcases hit : it.track with _ | track
    · simp [process_items, saveable_track_of, saveable_item, hit, ih q]
    · rcases hid : track.id with _ | tid
      · simp [process_items, saveable_track_of, saveable_item, hit, hid, ih q]
      · have h := ih (q + 1)
        simp [process_items, saveable_track_of, saveable_item, hit, hid,
          h.1, h.2.1, h.2.2]
        omega

theorem length_filterMap_saveable (items : List Item) :
    (items.filterMap saveable_track_of).length
      = (items.filter saveable_item).length := by
  induction items with
  | nil => rfl
  | cons it rest ih =>
    rcases hit : it.track with _ | track
    · simp [saveable_track_of, saveable_item, hit, ih]
    · rcases hid : track.id with _ | tid
      · simp [saveable_track_of, saveable_item, hit, hid, ih]
      · simp [saveable_track_of, saveable_item, hit, hid, ih]

theorem get_saveable_tracks_loop_spec (track_count : Nat) :
    ∀ (next_results : List Page) (page : Page) (q : Nat),
      (get_saveable_tracks_loop track_count q page next_results).1
        = ((visitedPages page next_results).map
            (fun pg => pg.items.filterMap saveable_track_of)).flatten ∧
      (get_saveable_tracks_loop track_count q page next_results).2.2
        = q + ((visitedPages page next_results).map
            (fun pg => (pg.items.filter saveable_item).length)).sum ∧
      (get_saveable_tracks_loop track_count q page next_results).2.1.length
        = ((visitedPages page next_results).map
            (fun pg => (pg.items.filter saveable_item).length)).sum := by
  intro next_results
  induction next_results with
  | nil =>
    intro page q
    have h := process_items_spec track_count page.items q
    simp [get_saveable_tracks_loop, visitedPages, h.1, h.2.1, h.2.2]
  | cons p ps ih =>
    intro page q
    have h := process_items_spec track_count page.items q
    by_cases hn : page.next
    · have h2 := ih p ((process_items track_count q page.items).2.2)
      refine ⟨?_, ?_, ?_⟩
      · simp only [get_saveable_tracks_loop, visitedPages, hn, if_true,
          List.map_cons, List.flatten_cons]
        rw [h.1, h2.1]
      · simp only [get_saveable_tracks_loop, visitedPages, hn, if_true,
          List.map_cons, List.sum_cons]
        rw [h2.2.1, h.2.1]
        omega
      · simp only [get_saveable_tracks_loop, visitedPages, hn, if_true,
          List.map_cons, List.sum_cons, List.length_append]
        rw [h.2.2, h2.2.2]
    · simp [get_saveable_tracks_loop, visitedPages, hn, h.1, h.2.1, h.2.2]

theorem get_saveable_tracks_tracks (first : Page) (next_results : List Page) :
    (get_saveable_tracks first next_results).tracks
      = ((visitedPages first next_results).map
          (fun pg => pg.items.filterMap saveable_track_of)).flatten :=
  (get_saveable_tracks_loop_spec first.total next_results first 0).1

theorem get_saveable_tracks_queued (first : Page) (next_results : List Page) :
    (get_saveable_tracks first next_results).queued_tracks
      = ((visitedPages first next_results).map
          (fun pg => (pg.items.filter saveable_item).length)).sum := by
  have h := (get_saveable_tracks_loop_spec first.total next_results first 0).2.1
  simpa using h

theorem get_saveable_tracks_logs_len (first : Page) (next_results : List Page) :
    (get_saveable_tracks first next_results).logs.length
      = ((visitedPages first next_results).map
          (fun pg => (pg.items.filter saveable_item).length)).sum :=
  (get_saveable_tracks_loop_spec first.total next_results first 0).2.2

theorem get_saveable_tracks_len_tracks (first : Page) (next_results : List Page) :
    (get_saveable_tracks first next_results).tracks.length
      = ((visitedPages first next_results).map
          (fun pg => (pg.items.filter saveable_item).length)).sum := by
  rw [get_saveable_tracks_tracks, List.length_flatten, List.map_map]
  rw [show (List.length ∘ fun pg : Page => pg.items.filterMap saveable_track_of)
      = (fun pg : Page => (pg.items.filter saveable_item).length) from
    funext (fun pg => length_filterMap_saveable pg.items)]

theorem save_tracks_loop_counts (env : SaveEnv) (total : Nat) :
    ∀ (ts : List TrackObj) (i : Nat),
      (save_tracks_loop env total i ts).tracksSaved
        + ((List.range' i ts.length).filter (containsOkTrue env)).length
        + (save_tracks_loop env total i ts).errorCount = ts.length := by
  intro ts
  induction ts with
  | nil => intro i; simp [save_tracks_loop]
  | cons t rest ih =>
    intro i
    have hr := ih (i + 1)
    rcases hc : env.contains i with u | b
    · simp [save_tracks_loop, save_tracks_step, List.range'_succ,
        List.filter_cons, containsOkTrue, hc]
      omega
    · cases b with
      | true =>
        simp [save_tracks_loop, save_tracks_step, List.range'_succ,
          List.filter_cons, containsOkTrue, hc]
        omega
      | false =>
        rcases ha : env.add i with u | u
        · simp [save_tracks_loop, save_tracks_step, List.range'_succ,
            List.filter_cons, containsOkTrue, hc, ha]
          omega
        · simp [save_tracks_loop, save_tracks_step, List.range'_succ,
            List.filter_cons, containsOkTrue, hc, ha]
          omega

theorem save_tracks_loop_errors (env : SaveEnv) (total : Nat) :
    ∀ (ts : List TrackObj) (i : Nat),
      (save_tracks_loop env total i ts).errorCount
        = ((List.range' i ts.length).filter (save_step_raises env)).length := by
  intro ts
  induction ts with
  | nil => intro i; simp [save_tracks_loop]
  | cons t rest ih =>
    intro i
    have hr := ih (i + 1)
    rcases hc : env.contains i with u | b
    · simp [save_tracks_loop, save_tracks_step, List.range'_succ,
        List.filter_cons, save_step_raises, hc, hr]
      omega
    · cases b with
      | true =>
        simp [save_tracks_loop, save_tracks_step, List.range'_succ,
          List.filter_cons, save_step_raises, hc, hr]
      | false =>
        rcases ha : env.add i with u | u
        · simp [save_tracks_loop, save_tracks_step, List.range'_succ,
            List.filter_cons, save_step_raises, hc, ha, hr]
          omega
        · simp [save_tracks_loop, save_tracks_step, List.range'_succ,
            List.filter_cons, save_step_raises, hc, ha, hr]

theorem save_tracks_loop_logs_len (env : SaveEnv) (total : Nat) :
    ∀ (ts : List TrackObj) (i : Nat),
      (save_tracks_loop env total i ts).logs.length = ts.length := by
  intro ts
  induction ts with
  | nil => intro i; simp [save_tracks_loop]
  | cons t rest ih => intro i; simp [save_tracks_loop, ih (i + 1)]

theorem save_tracks_loop_logs_get (env : SaveEnv) (total : Nat) :
    ∀ (ts : List TrackObj) (i j : Nat) (t : TrackObj), ts[j]? = some t →
      (save_tracks_loop env total i ts).logs[j]?
        = some ((save_tracks_step env total (i + j) t).2.2.1) := by
  intro ts
  induction ts with
  | nil => intro i j t h; simp at h
  | cons t0 rest ih =>
    intro i j t h
    cases j with
    | zero =>
      simp only [List.getElem?_cons_zero, Option.some.injEq] at h
      subst h
      simp [save_tracks_loop]
    | succ j =>
      simp only [List.getElem?_cons_succ] at h
      have h2 := ih (i + 1) j t h
      rw [show i + 1 + j = i + (j + 1) from by omega] at h2
      simpa [save_tracks_loop] using h2

theorem save_tracks_loop_addCalls (env : SaveEnv) (total : Nat) :
    ∀ (ts : List TrackObj) (i : Nat),
      (∀ j, j < ts.length → env.contains (i + j) = Except.ok true) →
      (save_tracks_loop env total i ts).addCalls = []
        ∧ (save_tracks_loop env total i ts).tracksSaved = 0 := by
  intro ts
  induction ts with
  | nil => intro i _; simp [save_tracks_loop]
  | cons t rest ih =>
    intro i h
    have hc : env.contains i = Except.ok true := by simpa using h 0 (by simp)
    have hrest := ih (i + 1) (fun j hj => by
      have hx := h (j + 1) (by simpa using Nat.succ_lt_succ hj)
      rwa [show i + (j + 1) = i + 1 + j from by omega] at hx)
    simp [save_tracks_loop, save_tracks_step, hc, hrest.1, hrest.2]

theorem save_tracks_step_error_log (env : SaveEnv) (total i : Nat)
    (t : TrackObj) (h : save_step_raises env i = true) :
    (save_tracks_step env total i t).2.2.1
      = LogEntry.error ("Error saving track with ID " ++ pyStrOptId t.id) := by
  rcases hc : env.contains i with u | b
  · simp [save_tracks_step, hc]
  · cases b with
    | true => exact absurd h (by simp [save_step_raises, hc])
    | false =>
      rcases ha : env.add i with u | u
      · simp [save_tracks_step, hc, ha]
      · exact absurd h (by simp [save_step_raises, hc, ha])

theorem info_appendix_of_nonempty (t : TrackObj) (hn : t.name ≠ "")
    (ha : ∃ a ∈ t.artists, a.name ≠ "") :
    get_track_info_appendix t
      = ": " ++ String.intercalate ", " (get_track_artist_names t)
          ++ " - " ++ t.name := by
  obtain ⟨a, hmem, hane⟩ := ha
  have h1 : (get_track_artist_names t).filter (fun i => !i.isEmpty) ≠ [] := by
    apply List.ne_nil_of_mem (a := a.name)
    apply List.mem_filter.mpr
    refine ⟨List.mem_map.mpr ⟨a, hmem, rfl⟩, ?_⟩
    have hne : a.name.isEmpty = false := by
      cases hx : a.name.isEmpty
      · rfl
      · exact absurd ((String.isEmpty_iff a.name).mp hx) hane
    simp [hne]
  have h2 : t.name.data.filter (fun _ => true) ≠ [] := by
    simp only [List.filter_true]
    intro hd
    exact hn (string_eq_empty_of_data_eq_nil _ hd)
  simp only [get_track_info_appendix]
  rw [if_pos ⟨h1, h2⟩]

/-- C1: counter partition. For every run of save_tracks over the track
sequence produced by get_saveable_tracks, the number of tracks newly saved
plus the number of tracks the presence check found already saved plus the
error count equals the queued_tracks counter of the reader (each processed
track ends in exactly one of the three outcomes). -/
theorem c1_counter_partition (env : SaveEnv) (first : Page)
    (next_results : List Page) :
    (save_tracks env (get_saveable_tracks first next_results).tracks).tracksSaved
      + already_saved_count env (get_saveable_tracks first next_results).tracks
      + (save_tracks env (get_saveable_tracks first next_results).tracks).errorCount
      = (get_saveable_tracks first next_results).queued_tracks := by
  have hq : (get_saveable_tracks first next_results).queued_tracks
      = (get_saveable_tracks first next_results).tracks.length := by
    rw [get_saveable_tracks_queued, get_saveable_tracks_len_tracks]
  rw [hq]
  simp only [save_tracks, already_saved_count, List.range_eq_range']
  exact save_tracks_loop_counts env
    (get_saveable_tracks first next_results).tracks.length
    (get_saveable_tracks first next_results).tracks 0

/-- C2: idempotence. If the presence check reports every track as already
saved, save_tracks issues zero current_user_saved_tracks_add calls and
returns tracksSaved = 0. -/
theorem c2_idempotence (env : SaveEnv) (tracks : List TrackObj)
    (h : ∀ j, j < tracks.length → env.contains j = Except.ok true) :
    (save_tracks env tracks).addCalls = []
      ∧ (save_tracks env tracks).tracksSaved = 0 := by
  have hl := save_tracks_loop_addCalls env tracks.length tracks 0
    (fun j hj => by simpa using h j hj)
  simpa [save_tracks] using hl

/-- Witness for c2_idempotence at a concrete remote that reports all five
tracks as already saved. -/
theorem c2_idempotence_witness :
    (save_tracks envAllSaved tracks5).addCalls = []
      ∧ (save_tracks envAllSaved tracks5).tracksSaved = 0 :=
  c2_idempotence envAllSaved tracks5 (fun _ _ => rfl)

/-- C3, counterexample: the claim says an item whose identifier is the empty
string is skipped and not emitted, but on a one-item page whose track has the
empty string as id the code emits that track (1 emitted, 0 items with a
non-empty id), so emitted tracks are NOT exactly the items with a non-empty
identifier. -/
theorem c3_counterexample :
    ¬ ((get_saveable_tracks pageEmptyId []).tracks.length
        = (pageEmptyId.items.filter has_nonempty_id).length) := by
  decide

/-- C3, amended: get_saveable_tracks emits exactly those items whose track
object is present and whose id is present and non-null (an empty-string id is
still emitted); the final queued counter and the number of queue log lines
both equal the number of emitted tracks; and the concrete 3-item playlist
whose second item has a null track yields exactly 2 tracks with total
reported as 3 and the queued counter ending at 2. -/
theorem c3_reader_skip_rule :
    (∀ (first : Page) (next_results : List Page),
      (get_saveable_tracks first next_results).tracks
        = ((visitedPages first next_results).map
            (fun pg => pg.items.filterMap saveable_track_of)).flatten
      ∧ (get_saveable_tracks first next_results).queued_tracks
        = (get_saveable_tracks first next_results).tracks.length
      ∧ (get_saveable_tracks first next_results).logs.length
        = (get_saveable_tracks first next_results).tracks.length)
    ∧ (get_saveable_tracks page3 []).tracks.length = 2
    ∧ (get_saveable_tracks page3 []).track_count = 3
    ∧ (get_saveable_tracks page3 []).queued_tracks = 2 := by
  refine ⟨fun first nr => ⟨get_saveable_tracks_tracks first nr, ?_, ?_⟩,
    by decide, by decide, by decide⟩
  · rw [get_saveable_tracks_queued, get_saveable_tracks_len_tracks]
  · rw [get_saveable_tracks_logs_len, get_saveable_tracks_len_tracks]

/-- C4: track-level error recovery. Every processed track yields exactly one
log entry (so a failing track never aborts the run and all later tracks are
still processed), the error counter equals the number of indices at which the
presence check or the add call raises, and at every raising index the log
entry is an error line containing the id of that track. -/
theorem c4_track_error_recovery (env : SaveEnv) (tracks : List TrackObj) :
    (save_tracks env tracks).logs.length = tracks.length
    ∧ (save_tracks env tracks).errorCount
        = ((List.range tracks.length).filter (save_step_raises env)).length
    ∧ ∀ (j : Nat) (t : TrackObj), tracks[j]? = some t →
        save_step_raises env j = true →
        (save_tracks env tracks).logs[j]?
          = some (LogEntry.error ("Error saving track with ID "
              ++ pyStrOptId t.id)) := by
  refine ⟨save_tracks_loop_logs_len env tracks.length tracks 0, ?_, ?_⟩
  · simp only [save_tracks, List.range_eq_range']
    exact save_tracks_loop_errors env tracks.length tracks 0
  · intro j t hj hr
    have hg := save_tracks_loop_logs_get env tracks.length tracks 0 j t hj
    rw [save_tracks_step_error_log env tracks.length (0 + j) t
      (by simpa using hr)] at hg
    exact hg

/-- Witness for c4_track_error_recovery: with 5 tracks where the presence
check raises exactly at index 2, the run still writes 5 log entries, ends
with errorCount = 1, and logs an error line with the id of track 2. -/
theorem c4_track_error_recovery_witness :
    (save_tracks env5 tracks5).logs.length = 5
    ∧ (save_tracks env5 tracks5).errorCount = 1
    ∧ (save_tracks env5 tracks5).logs[2]?
        = some (LogEntry.error "Error saving track with ID t2") := by
  obtain ⟨h1, h2, h3⟩ := c4_track_error_recovery env5 tracks5
  refine ⟨h1.trans (by decide), h2.trans (by decide), ?_⟩
  have hx := h3 2 trk2 (by decide) (by decide)
  exact hx.trans (by decide)

/-- C5: fatal-path atomicity. When the playlist listing call raises, the
modelled main aborts at once: the only log entry is the playlist error
message (so neither the reader loop nor the synchronizer ran), no add call is
issued, and no summary is produced. -/
theorem c5_fatal_path (env : MainEnv) (playlist_id log_filename : String)
    (h : env.playlist_items = Except.error ()) :
    (main_core env playlist_id log_filename).logs
        = [LogEntry.error (playlist_error_message playlist_id)]
    ∧ (main_core env playlist_id log_filename).addCalls = []
    ∧ (main_core env playlist_id log_filename).summary = none := by
  simp [main_core, h]

/-- Witness for c5_fatal_path at a concrete remote whose listing call
raises. -/
theorem c5_fatal_path_witness :
    (main_core envFatal "playlist1" "heart_all.log").logs
        = [LogEntry.error (playlist_error_message "playlist1")]
    ∧ (main_core envFatal "playlist1" "heart_all.log").addCalls = []
    ∧ (main_core envFatal "playlist1" "heart_all.log").summary = none :=
  c5_fatal_path envFatal "playlist1" "heart_all.log" rfl

/-- C6: pagination termination and length. get_saveable_tracks is a total
function (so it terminates on every finite next-cursor chain), and the length
of the produced track list equals the sum, over the pages actually visited,
of the number of items that pass the null-filter (track present with a
non-null id). -/
theorem c6_pagination_length (first : Page) (next_results : List Page) :
    (get_saveable_tracks first next_results).tracks.length
      = ((visitedPages first next_results).map
          (fun pg => (pg.items.filter saveable_item).length)).sum :=
  get_saveable_tracks_len_tracks first next_results

/-- C7: synchronizer log line content. For the track at index j, the skip
log line and the save log line consist of the 1-based position j+1 rendered
right-aligned to the width of the decimal total track count, a slash and the
total, the fixed wording with the track id, and the info appendix; the
appendix is the human-readable artists-dash-name suffix whenever the name and
at least one artist name are non-empty. -/
theorem c7_log_line_content (env : SaveEnv) (tracks : List TrackObj)
    (j : Nat) (t : TrackObj) (hj : tracks[j]? = some t) :
    (env.contains j = Except.ok true →
      ∃ pad : String,
        (save_tracks env tracks).logs[j]?
          = some (LogEntry.info (pad ++ Nat.repr (j + 1) ++ "/"
              ++ Nat.repr tracks.length ++ " Track with ID "
              ++ pyStrOptId t.id ++ " already saved"
              ++ get_track_info_appendix t))
        ∧ pad.toList.all (fun c => c == ' ') = true
        ∧ (pad ++ Nat.repr (j + 1)).length
            = max (Nat.repr tracks.length).length (Nat.repr (j + 1)).length)
    ∧ (env.contains j = Except.ok false → env.add j = Except.ok () →
      ∃ pad : String,
        (save_tracks env tracks).logs[j]?
          = some (LogEntry.info (pad ++ Nat.repr (j + 1) ++ "/"
              ++ Nat.repr tracks.length ++ " Saved track with ID "
              ++ pyStrOptId t.id ++ get_track_info_appendix t))
        ∧ pad.toList.all (fun c => c == ' ') = true
        ∧ (pad ++ Nat.repr (j + 1)).length
            = max (Nat.repr tracks.length).length (Nat.repr (j + 1)).length)
    ∧ (t.name ≠ "" → (∃ a ∈ t.artists, a.name ≠ "") →
      get_track_info_appendix t
        = ": " ++ String.intercalate ", " (get_track_artist_names t)
            ++ " - " ++ t.name) := by
  have hg := save_tracks_loop_logs_get env tracks.length tracks 0 j t hj
  rw [Nat.zero_add] at hg
  obtain ⟨pad, hfmt, hall, hlen⟩ := get_formatted_track_number_spec j tracks.length
  refine ⟨?_, ?_, info_appendix_of_nonempty t⟩
  · intro hc
    refine ⟨pad, ?_, hall, hlen⟩
    have hstep : (save_tracks_step env tracks.length j t).2.2.1
        = LogEntry.info (get_formatted_track_number j tracks.length
            ++ " Track with ID " ++ pyStrOptId t.id ++ " already saved"
            ++ get_track_info_appendix t) := by
      simp [save_tracks_step, hc]
    rw [hstep, hfmt] at hg
    exact hg
  · intro hc ha
    refine ⟨pad, ?_, hall, hlen⟩
    have hstep : (save_tracks_step env tracks.length j t).2.2.1
        = LogEntry.info (get_formatted_track_number j tracks.length
            ++ " Saved track with ID " ++ pyStrOptId t.id
            ++ get_track_info_appendix t) := by
      simp [save_tracks_step, hc, ha]
    rw [hstep, hfmt] at hg
    exact hg

/-- Witness for c7_log_line_content: both the skip line and the save line at
a concrete one-track run, plus the concrete appendix. -/
theorem c7_log_line_content_witness :
    (save_tracks envAllSaved [trackSong]).logs[0]?
        = some (LogEntry.info "1/1 Track with ID id1 already saved: A, B - Song")
    ∧ (save_tracks envNoneSaved [trackSong]).logs[0]?
        = some (LogEntry.info "1/1 Saved track with ID id1: A, B - Song")
    ∧ get_track_info_appendix trackSong = ": A, B - Song" := by
  have h1 := c7_log_line_content envAllSaved [trackSong] 0 trackSong rfl
  have h2 := c7_log_line_content envNoneSaved [trackSong] 0 trackSong rfl
  refine ⟨?_, ?_, ?_⟩
  · obtain ⟨pad, hlog, _, hlen⟩ := h1.1 rfl
    have hpad : pad = "" := eq_empty_of_append_length pad (Nat.repr (0 + 1))
      (hlen.trans (by decide))
    subst hpad
    exact hlog.trans (by decide)
  · obtain ⟨pad, hlog, _, hlen⟩ := h2.2.1 rfl rfl
    have hpad : pad = "" := eq_empty_of_append_length pad (Nat.repr (0 + 1))
      (hlen.trans (by decide))
    subst hpad
    exact hlog.trans (by decide)
  · exact (h1.2.2 (by decide) ⟨⟨"A"⟩, by decide, by decide⟩).trans (by decide)

/-- C8: position formatting. get_formatted_track_number q t is the decimal
rendering of q+1 right-aligned with spaces to the width of the decimal
rendering of t, followed by a slash and t; in particular the pair (0, 100)
gives a 3-wide right-aligned 1 and (9, 10) gives 10/10. -/
theorem c8_position_formatting :
    (∀ q t : Nat, ∃ pad : String,
      get_formatted_track_number q t
        = pad ++ Nat.repr (q + 1) ++ "/" ++ Nat.repr t
      ∧ pad.toList.all (fun c => c == ' ') = true
      ∧ (pad ++ Nat.repr (q + 1)).length
          = max (Nat.repr t).length (Nat.repr (q + 1)).length)
    ∧ get_formatted_track_number 0 100 = "  1/100"
    ∧ get_formatted_track_number 9 10 = "10/10" :=
  ⟨fun q t => get_formatted_track_number_spec q t, by decide, by decide⟩

/-- C9: info-appendix. A track named Song with artists A and B yields the
suffix with A, B and the name, whatever its id; and whenever the name is
empty the suffix is empty even if artist names are present. -/
theorem c9_info_appendix :
    (∀ oid : Option String,
      get_track_info_appendix ⟨oid, "Song", [⟨"A"⟩, ⟨"B"⟩]⟩ = ": A, B - Song")
    ∧ (∀ t : TrackObj, t.name = "" → get_track_info_appendix t = "") := by
  refine ⟨fun oid => rfl, fun t h => ?_⟩
  have hd : t.name.data = [] := by rw [h]
  simp [get_track_info_appendix, hd]

/-- Witness for c9_info_appendix at a concrete track with an empty name and
a non-empty artist. -/
theorem c9_info_appendix_witness :
    get_track_info_appendix trackEmptyName = "" :=
  c9_info_appendix.2 trackEmptyName rfl

/-- C10: all artist names are joined into the suffix, the empty ones
included. A track named Song with artists A and the empty string yields the
suffix with an empty slot between the comma-space and the dash; in general,
whenever the name is non-empty and some artist name is non-empty, the suffix
joins the FULL artist-name list. -/
theorem c10_joins_all_artist_names :
    get_track_info_appendix trackEmptyArtistSlot = ": A,  - Song"
    ∧ (∀ t : TrackObj, t.name ≠ "" → (∃ a ∈ t.artists, a.name ≠ "") →
        get_track_info_appendix t
          = ": " ++ String.intercalate ", " (get_track_artist_names t)
              ++ " - " ++ t.name) :=
  ⟨by decide, fun t hn ha => info_appendix_of_nonempty t hn ha⟩

/-- Witness for c10_joins_all_artist_names at a concrete track. -/
theorem c10_joins_all_artist_names_witness :
    get_track_info_appendix trackOneArtist = ": A - Song" :=
  (c10_joins_all_artist_names.2 trackOneArtist (by decide)
    ⟨⟨"A"⟩, by decide, by decide⟩).trans (by decide)

end HeartAll

